import Mathlib

/-!
Verification of the aggregation pipeline of the Amazon_QApp_Retriever repository.

The Python source manipulates loosely-typed nested dictionaries obtained from
remote list/get calls.  The shallow embedding below follows these conventions:

* A Python dictionary read with `d.get(key, default)` is modelled by a structure
  whose field has type `Option _`; the read becomes `(field).getD default`.
* A key that the source indexes unconditionally (`item['libraryItemId']`,
  `source['dataSourceId']`, `retriever['retrieverId']`, `plugin['pluginId']`)
  is modelled as a required (non-`Option`) field.
* A remote call that can raise `ClientError` is modelled by an environment
  function returning `Option _`; `none` is the error case.
* Python truthiness tests on strings (`if not self.identity_store_id`,
  `if identity_center_arn`, `x or 'N/A'`) treat both `None` and the empty
  string as false; `isFalsy` and `orNA` capture this.
* The rows built by `_create_data_row` / `_create_global_row` are Python dicts
  with a fixed literal insertion order; they are modelled as association lists
  `List (String × Val)` in that same insertion order.
* Calls to `datetime.now()`, the AWS region and the expected account are
  run-level inputs; they are passed as explicit parameters.
-/

/-- Cell values occurring in exported rows: strings, counts and booleans. -/
inductive Val where
  | s (v : String)
  | n (v : Nat)
  | b (v : Bool)
deriving DecidableEq, Repr

/-- An exported row: a Python dict in insertion order. -/
abbrev Row := List (String × Val)

/-- Lookup of a key in a row (`row[key]` / `row.get(key)`). -/
def rowGet (r : Row) (k : String) : Option Val :=
  (r.find? (fun kv => kv.1 == k)).map (fun kv => kv.2)

/-- The key list of a row, in insertion order (`list(row.keys())`). -/
def rowKeys (r : Row) : List String := r.map (fun kv => kv.1)

/-- Python truthiness of an optional string: `None` and `""` are falsy. -/
def isFalsy : Option String → Bool
  | none => true
  | some s => s == ""

/-- Python `x or 'N/A'` for an optional string `x`. -/
def orNA : Option String → String
  | none => "N/A"
  | some s => if s == "" then "N/A" else s

/-- One entry of the `Emails` list of a `describe_user` response. -/
structure EmailEntry where
  primary : Option Bool
  value : Option String
deriving DecidableEq, Repr

/-- The fields of a `describe_user` response read by the source. -/
structure DescribeUserResponse where
  userName : Option String
  emails : List EmailEntry
  displayName : Option String
deriving DecidableEq, Repr

/-- A resolved identity record, as cached in `self.user_cache`. -/
structure UserInfo where
  username : String
  email : String
  display_name : String
deriving DecidableEq, Repr

/-- The user cache: a dict keyed by principal id, newest binding first. -/
abbrev UserCache := List (String × UserInfo)

/-- Lookup in the user cache (`user_id in self.user_cache`). -/
def cacheLookup (cache : UserCache) (user_id : String) : Option UserInfo :=
  (cache.find? (fun kv => kv.1 == user_id)).map (fun kv => kv.2)

/-- Embedding of `_extract_email` (get_qbusiness_global_enhanced.py):
primary-flagged email first, else the first email, else `"N/A"`. -/
def _extract_email (resp : DescribeUserResponse) : String :=
  match resp.emails with
  | [] => "N/A"
  | e :: es =>
    match (e :: es).find? (fun em => em.primary.getD false) with
    | some em => em.value.getD "N/A"
    | none => e.value.getD "N/A"

/-- Embedding of `get_user_details` (get_qbusiness_global_enhanced.py).
`describeUser sid uid` is the remote `describe_user` call (`none` =
`ClientError`).  Returns the record, the updated cache, and the number of
remote lookups performed (0 or 1). -/
def get_user_details (describeUser : String → String → Option DescribeUserResponse)
    (identity_store_id : Option String) (cache : UserCache) (user_id : String) :
    UserInfo × UserCache × Nat :=
  match cacheLookup cache user_id with
  | some info => (info, cache, 0)
  | none =>
    if isFalsy identity_store_id || user_id == "N/A" then
      let info : UserInfo := ⟨user_id, "N/A", "N/A"⟩
      (info, (user_id, info) :: cache, 0)
    else
      match identity_store_id with
      | some sid =>
        match describeUser sid user_id with
        | some resp =>
          let info : UserInfo :=
            ⟨resp.userName.getD "N/A", _extract_email resp, resp.displayName.getD "N/A"⟩
          (info, (user_id, info) :: cache, 1)
        | none =>
          let info : UserInfo := ⟨user_id, "N/A", "N/A"⟩
          (info, (user_id, info) :: cache, 1)
      | none =>
        -- unreachable: `isFalsy none = true`
        let info : UserInfo := ⟨user_id, "N/A", "N/A"⟩
        (info, (user_id, info) :: cache, 0)

/-- On a cache hit `get_user_details` returns the cached record, leaves the
cache unchanged and performs no lookup. -/
theorem get_user_details_hit (describeUser : String → String → Option DescribeUserResponse)
    (sid : Option String) (cache : UserCache) (uid : String) (info : UserInfo)
    (h : cacheLookup cache uid = some info) :
    get_user_details describeUser sid cache uid = (info, cache, 0) := by
  unfold get_user_details
  rw [h]

/-- After any call, the principal id is cached and maps to the returned record. -/
theorem get_user_details_caches (describeUser : String → String → Option DescribeUserResponse)
    (sid : Option String) (cache : UserCache) (uid : String) :
    cacheLookup (get_user_details describeUser sid cache uid).2.1 uid
      = some (get_user_details describeUser sid cache uid).1 := by
  unfold get_user_details
  cases h : cacheLookup cache uid with
  | some info => simpa using h
  | none =>
    by_cases hf : (isFalsy sid || uid == "N/A") = true
    · simp [hf, cacheLookup]
    · simp only [hf]
      cases sid with
      | none => simp [cacheLookup]
      | some s =>
        cases hd : describeUser s uid with
        | some resp => simp [hf, hd, cacheLookup]
        | none => simp [hf, hd, cacheLookup]

/-- Each single call performs at most one remote lookup. -/
theorem get_user_details_lookups_le_one
    (describeUser : String → String → Option DescribeUserResponse)
    (sid : Option String) (cache : UserCache) (uid : String) :
    (get_user_details describeUser sid cache uid).2.2 ≤ 1 := by
  unfold get_user_details
  cases h : cacheLookup cache uid with
  | some info => simp
  | none =>
    by_cases hf : (isFalsy sid || uid == "N/A") = true
    · simp [hf]
    · simp only [hf]
      cases sid with
      | none => simp
      | some s => cases hd : describeUser s uid <;> simp [hd]

/-- C2: identity resolution is idempotent within one run: calling
`get_user_details` twice with the same principal id performs at most one
remote `describe_user` lookup in total, the second call performs none and
leaves the cache unchanged, and both calls return the identical record. -/
theorem resolve_idempotent (describeUser : String → String → Option DescribeUserResponse)
    (sid : Option String) (cache : UserCache) (uid : String) :
    (get_user_details describeUser sid
        (get_user_details describeUser sid cache uid).2.1 uid).1
      = (get_user_details describeUser sid cache uid).1 ∧
    (get_user_details describeUser sid
        (get_user_details describeUser sid cache uid).2.1 uid).2.1
      = (get_user_details describeUser sid cache uid).2.1 ∧
    (get_user_details describeUser sid cache uid).2.2 +
      (get_user_details describeUser sid
        (get_user_details describeUser sid cache uid).2.1 uid).2.2 ≤ 1 := by
  have hc := get_user_details_caches describeUser sid cache uid
  have h2 := get_user_details_hit describeUser sid
    (get_user_details describeUser sid cache uid).2.1 uid
    (get_user_details describeUser sid cache uid).1 hc
  refine ⟨by rw [h2], by rw [h2], ?_⟩
  rw [h2]
  have h1 := get_user_details_lookups_le_one describeUser sid cache uid
  simpa using h1

/-- C3: on a cache miss, `get_user_details` returns and caches the placeholder
record `{username = principal id, email = "N/A", display_name = "N/A"}` when
the directory id is absent, when the principal id is the `"N/A"` sentinel, and
when the remote lookup fails; on a successful lookup the resulting email is
the first primary-flagged email if one is present, else the first email in
the list, else `"N/A"`. -/
theorem resolve_miss_behaviour :
    (∀ (d : String → String → Option DescribeUserResponse) (cache : UserCache) (uid : String),
       cacheLookup cache uid = none →
       get_user_details d none cache uid
         = (⟨uid, "N/A", "N/A"⟩, (uid, ⟨uid, "N/A", "N/A"⟩) :: cache, 0)) ∧
    (∀ (d : String → String → Option DescribeUserResponse) (sid : Option String)
       (cache : UserCache), cacheLookup cache "N/A" = none →
       get_user_details d sid cache "N/A"
         = (⟨"N/A", "N/A", "N/A"⟩, ("N/A", ⟨"N/A", "N/A", "N/A"⟩) :: cache, 0)) ∧
    (∀ (d : String → String → Option DescribeUserResponse) (s : String)
       (cache : UserCache) (uid : String), s ≠ "" → uid ≠ "N/A" →
       cacheLookup cache uid = none → d s uid = none →
       get_user_details d (some s) cache uid
         = (⟨uid, "N/A", "N/A"⟩, (uid, ⟨uid, "N/A", "N/A"⟩) :: cache, 1)) ∧
    (∀ (d : String → String → Option DescribeUserResponse) (s : String)
       (cache : UserCache) (uid : String) (resp : DescribeUserResponse),
       s ≠ "" → uid ≠ "N/A" → cacheLookup cache uid = none → d s uid = some resp →
       (get_user_details d (some s) cache uid).1.email = _extract_email resp) ∧
    (∀ resp : DescribeUserResponse, resp.emails = [] → _extract_email resp = "N/A") ∧
    (∀ (resp : DescribeUserResponse) (em : EmailEntry),
       resp.emails.find? (fun e => e.primary.getD false) = some em →
       _extract_email resp = em.value.getD "N/A") ∧
    (∀ (resp : DescribeUserResponse) (e : EmailEntry) (es : List EmailEntry),
       resp.emails = e :: es →
       resp.emails.find? (fun e2 => e2.primary.getD false) = none →
       _extract_email resp = e.value.getD "N/A") := by
  refine ⟨?_, ?_, ?_, ?_, ?_, ?_, ?_⟩
  · intro d cache uid h
    unfold get_user_details
    rw [h]
    simp [isFalsy]
  · intro d sid cache h
    unfold get_user_details
    rw [h]
    simp
  · intro d s cache uid hs hu h hd
    unfold get_user_details
    rw [h]
    simp [isFalsy, hs, hu, hd]
  · intro d s cache uid resp hs hu h hd
    unfold get_user_details
    rw [h]
    simp [isFalsy, hs, hu, hd]
  · intro resp h
    simp [_extract_email, h]
  · intro resp em hfind
    cases hem : resp.emails with
    | nil => rw [hem] at hfind; simp at hfind
    | cons e es =>
      rw [hem] at hfind
      simp only [_extract_email, hem, hfind]
  · intro resp e es hem hfind
    rw [hem] at hfind
    simp only [_extract_email, hem, hfind]

/-- Witness for C3: concrete placeholder resolution and primary-email
extraction. -/
theorem resolve_miss_behaviour_witness :
    get_user_details (fun _ _ => none) none [] "u1"
      = (⟨"u1", "N/A", "N/A"⟩, [("u1", ⟨"u1", "N/A", "N/A"⟩)], 0) ∧
    _extract_email
        ⟨some "bob", [⟨some false, some "first@x"⟩, ⟨some true, some "primary@x"⟩], none⟩
      = "primary@x" := by
  constructor
  · exact resolve_miss_behaviour.1 (fun _ _ => none) [] "u1" rfl
  · exact resolve_miss_behaviour.2.2.2.2.2.1
      ⟨some "bob", [⟨some false, some "first@x"⟩, ⟨some true, some "primary@x"⟩], none⟩
      ⟨some true, some "primary@x"⟩ rfl

/-- C9: the identity cache is keyed by the principal id alone: a second call
with any other directory id (including `none` first, valid later) returns the
record cached by the first call, performs no lookup, and leaves the cache
unchanged. -/
theorem resolve_ignores_directory_id
    (describeUser : String → String → Option DescribeUserResponse)
    (sid1 sid2 : Option String) (cache : UserCache) (uid : String) :
    get_user_details describeUser sid2
        (get_user_details describeUser sid1 cache uid).2.1 uid
      = ((get_user_details describeUser sid1 cache uid).1,
         (get_user_details describeUser sid1 cache uid).2.1, 0) := by
  exact get_user_details_hit describeUser sid2
    (get_user_details describeUser sid1 cache uid).2.1 uid
    (get_user_details describeUser sid1 cache uid).1
    (get_user_details_caches describeUser sid1 cache uid)

/-- One entry of a Q App's `categories` list. -/
structure Category where
  title : Option String
deriving DecidableEq, Repr

/-- A Q App library item (summary or hydrated detail).  `libraryItemId` is
required because the source indexes it unconditionally
(`item['libraryItemId']`). -/
structure Qapp where
  libraryItemId : String
  appId : Option String
  appVersion : Option String
  status : Option String
  title : Option String
  userCount : Option Nat
  createdBy : Option String
  updatedBy : Option String
  createdAt : Option String
  updatedAt : Option String
  ratingCount : Option Nat
  isVerified : Option Bool
  isRatedByUser : Option Bool
  description : Option String
  categories : Option (List Category)
deriving DecidableEq, Repr

/-- `encryptionConfiguration` sub-dictionary. -/
structure EncryptionConfiguration where
  kmsKeyId : Option String
deriving DecidableEq, Repr

/-- `attachmentsConfiguration` sub-dictionary. -/
structure AttachmentsConfiguration where
  attachmentsControlMode : Option String
deriving DecidableEq, Repr

/-- `autoSubscriptionConfiguration` sub-dictionary. -/
structure AutoSubscriptionConfiguration where
  autoSubscribe : Option String
  defaultSubscriptionType : Option String
deriving DecidableEq, Repr

/-- `personalizationConfiguration` sub-dictionary. -/
structure PersonalizationConfiguration where
  personalizationControlMode : Option String
deriving DecidableEq, Repr

/-- `qAppsConfiguration` sub-dictionary. -/
structure QAppsConfiguration where
  qAppsControlMode : Option String
deriving DecidableEq, Repr

/-- `quickSightConfiguration` sub-dictionary. -/
structure QuickSightConfiguration where
  clientNamespace : Option String
deriving DecidableEq, Repr

/-- `error` sub-dictionary of an application record. -/
structure ErrorDetail where
  errorCode : Option String
  errorMessage : Option String
deriving DecidableEq, Repr

/-- A Q Business application record (the fields the source reads). -/
structure App where
  applicationId : Option String
  displayName : Option String
  applicationArn : Option String
  description : Option String
  status : Option String
  createdAt : Option String
  updatedAt : Option String
  identityType : Option String
  identityCenterApplicationArn : Option String
  iamIdentityProviderArn : Option String
  clientIdsForOIDC : Option (List String)
  roleArn : Option String
  encryptionConfiguration : Option EncryptionConfiguration
  attachmentsConfiguration : Option AttachmentsConfiguration
  autoSubscriptionConfiguration : Option AutoSubscriptionConfiguration
  personalizationConfiguration : Option PersonalizationConfiguration
  qAppsConfiguration : Option QAppsConfiguration
  quickSightConfiguration : Option QuickSightConfiguration
  errorDetail : Option ErrorDetail
deriving DecidableEq, Repr

/-- The application record with every key absent. -/
def emptyApp : App :=
  ⟨none, none, none, none, none, none, none, none, none, none,
   none, none, none, none, none, none, none, none, none⟩

/-- A data source record; `dataSourceId` is required (`source['dataSourceId']`). -/
structure DataSource where
  dataSourceId : String
  type : Option String
  displayName : Option String
  status : Option String
deriving DecidableEq, Repr

/-- A retriever record; `retrieverId` is required (`retriever['retrieverId']`). -/
structure Retriever where
  retrieverId : String
  type : Option String
  status : Option String
deriving DecidableEq, Repr

/-- A plugin record; `pluginId` is required (`plugin['pluginId']`). -/
structure Plugin where
  pluginId : String
  type : Option String
  status : Option String
deriving DecidableEq, Repr

/-- `blockedPhrases` sub-dictionary of the chat-controls response. -/
structure BlockedPhrasesCfg where
  blockedPhrases : Option (List String)
  systemMessageOverride : Option String
deriving DecidableEq, Repr

/-- `creatorModeConfiguration` sub-dictionary. -/
structure CreatorModeCfg where
  creatorModeControl : Option String
deriving DecidableEq, Repr

/-- `hallucinationReductionConfiguration` sub-dictionary. -/
structure HallucinationReductionCfg where
  hallucinationReductionControl : Option String
deriving DecidableEq, Repr

/-- `orchestrationConfiguration` sub-dictionary. -/
structure OrchestrationCfg where
  control : Option String
deriving DecidableEq, Repr

/-- One topic configuration entry. -/
structure TopicCfg where
  name : Option String
  description : Option String
deriving DecidableEq, Repr

/-- The chat-controls response.  The source models a failed fetch as the falsy
empty dict `{}`; here that case is `Option ChatControls` with `none`. -/
structure ChatControls where
  blockedPhrases : Option BlockedPhrasesCfg
  creatorModeConfiguration : Option CreatorModeCfg
  hallucinationReductionConfiguration : Option HallucinationReductionCfg
  orchestrationConfiguration : Option OrchestrationCfg
  topicConfigurations : Option (List TopicCfg)
  responseScope : Option String
deriving DecidableEq, Repr

namespace Enhanced

/-- Embedding of `get_identity_store_id` (enhanced script): one `sso-admin
list_instances` call; the first instance's identity store id, `none` when the
instance list is empty or the call raises.  The ARN argument is accepted but
unused, as in the source. -/
def get_identity_store_id (listInstances : Option (List String))
    (_identity_center_arn : String) : Option String :=
  match listInstances with
  | some (i :: _) => some i
  | some [] => none
  | none => none

/-- Embedding of `get_qapps` (enhanced script): concatenation of all
`list_library_items` pages, no per-item detail hydration; a `ClientError`
anywhere in the loop yields `[]`. -/
def get_qapps (pages : Option (List (List Qapp))) : List Qapp :=
  match pages with
  | none => []
  | some ps => ps.flatMap (fun items => items)

/-- Embedding of `get_data_sources` (enhanced script): every listed item is
hydrated via `get_data_source`, falling back to the summary on failure; a
failing list call yields `[]`. -/
def get_data_sources (pages : Option (List (List DataSource)))
    (getDetail : String → Option DataSource) : List DataSource :=
  match pages with
  | none => []
  | some ps =>
    ps.flatMap (fun sources =>
      sources.map (fun source => (getDetail source.dataSourceId).getD source))

/-- Embedding of `get_retrievers` (identical in both global scripts). -/
def get_retrievers (pages : Option (List (List Retriever)))
    (getDetail : String → Option Retriever) : List Retriever :=
  match pages with
  | none => []
  | some ps =>
    ps.flatMap (fun ret_list =>
      ret_list.map (fun retriever => (getDetail retriever.retrieverId).getD retriever))

/-- Embedding of `get_plugins` (enhanced script). -/
def get_plugins (pages : Option (List (List Plugin)))
    (getDetail : String → Option Plugin) : List Plugin :=
  match pages with
  | none => []
  | some ps =>
    ps.flatMap (fun plugin_list =>
      plugin_list.map (fun plugin => (getDetail plugin.pluginId).getD plugin))

/-- Q App section of the global row (source sections `Q APP INFORMATION`,
`CREATOR DETAILS`, `UPDATER DETAILS`, `ADDITIONAL METADATA`). -/
def globalRowQappSection (qapp : Option Qapp) (creator_id : String)
    (creator_info : UserInfo) (updater_id : String) (updater_info : UserInfo) : Row :=
  [("qapp_name", .s (match qapp with
      | some q => "Q App " ++ q.libraryItemId
      | none => "No Q Apps")),
   ("qapp_id", .s (match qapp with
      | some q => q.appId.getD "N/A"
      | none => "N/A")),
   ("qapp_library_item_id", .s (match qapp with
      | some q => q.libraryItemId
      | none => "N/A")),
   ("qapp_version", .s (match qapp with
      | some q => q.appVersion.getD "N/A"
      | none => "N/A")),
   ("qapp_status", .s (match qapp with
      | some q => q.status.getD "N/A"
      | none => "N/A")),
   ("qapp_user_count", .n (match qapp with
      | some q => q.userCount.getD 0
      | none => 0)),
   ("qapp_creator_user_id", .s creator_id),
   ("qapp_creator_username", .s creator_info.username),
   ("qapp_creator_email", .s creator_info.email),
   ("qapp_creator_display_name", .s creator_info.display_name),
   ("qapp_created_at", .s (match qapp with
      | some q => q.createdAt.getD "N/A"
      | none => "N/A")),
   ("qapp_updater_user_id", .s updater_id),
   ("qapp_updater_username", .s updater_info.username),
   ("qapp_updater_email", .s updater_info.email),
   ("qapp_updated_at", .s (match qapp with
      | some q => q.updatedAt.getD "N/A"
      | none => "N/A")),
   ("qapp_rating_count", .n (match qapp with
      | some q => q.ratingCount.getD 0
      | none => 0)),
   ("qapp_is_verified", .b (match qapp with
      | some q => q.isVerified.getD false
      | none => false)),
   ("qapp_is_rated_by_user", .b (match qapp with
      | some q => q.isRatedByUser.getD false
      | none => false)),
   ("qapp_description", .s (match qapp with
      | some q => q.description.getD "N/A"
      | none => "N/A")),
   ("qapp_categories", .s (match qapp with
      | some q => String.intercalate ", "
          ((q.categories.getD []).map (fun cat => cat.title.getD ""))
      | none => "N/A"))]

/-- Application section of the global row (source sections
`APPLICATION BASIC INFO`, `IDENTITY & SECURITY`, `APPLICATION CONFIGURATION`). -/
def globalRowAppSection (app : App) (identity_store_id : Option String) : Row :=
  [("app_name", .s (app.displayName.getD "N/A")),
   ("app_id", .s (app.applicationId.getD "N/A")),
   ("app_arn", .s (app.applicationArn.getD "N/A")),
   ("app_description", .s (app.description.getD "N/A")),
   ("app_status", .s (app.status.getD "N/A")),
   ("app_created_at", .s (app.createdAt.getD "N/A")),
   ("app_updated_at", .s (app.updatedAt.getD "N/A")),
   ("identity_type", .s (app.identityType.getD "N/A")),
   ("identity_center_arn", .s (app.identityCenterApplicationArn.getD "N/A")),
   ("identity_store_id", .s (orNA identity_store_id)),
   ("iam_identity_provider_arn", .s (app.iamIdentityProviderArn.getD "N/A")),
   ("client_ids_for_oidc", .s (String.intercalate ", " (app.clientIdsForOIDC.getD []))),
   ("role_arn", .s (app.roleArn.getD "N/A")),
   ("encryption_kms_key", .s ((app.encryptionConfiguration.getD ⟨none⟩).kmsKeyId.getD
      "AWS Managed")),
   ("attachments_mode", .s ((app.attachmentsConfiguration.getD ⟨none⟩).attachmentsControlMode.getD
      "N/A")),
   ("auto_subscribe", .s ((app.autoSubscriptionConfiguration.getD
      ⟨none, none⟩).autoSubscribe.getD "N/A")),
   ("auto_subscribe_default", .s ((app.autoSubscriptionConfiguration.getD
      ⟨none, none⟩).defaultSubscriptionType.getD "N/A")),
   ("personalization_mode", .s ((app.personalizationConfiguration.getD
      ⟨none⟩).personalizationControlMode.getD "N/A")),
   ("qapps_mode", .s ((app.qAppsConfiguration.getD ⟨none⟩).qAppsControlMode.getD "N/A")),
   ("quicksight_namespace", .s ((app.quickSightConfiguration.getD
      ⟨none⟩).clientNamespace.getD "N/A"))]

/-- Chat-controls section of the global row (source sections
`BLOCKED PHRASES`, `BEHAVIOR`, `TOPICS`). -/
def globalRowControlsSection (chat_controls : Option ChatControls) : Row :=
  let blocked_phrases_config :=
    match chat_controls with
    | some cc => cc.blockedPhrases.getD ⟨none, none⟩
    | none => (⟨none, none⟩ : BlockedPhrasesCfg)
  let creator_mode :=
    match chat_controls with
    | some cc => cc.creatorModeConfiguration.getD ⟨none⟩
    | none => (⟨none⟩ : CreatorModeCfg)
  let hallucination_reduction :=
    match chat_controls with
    | some cc => cc.hallucinationReductionConfiguration.getD ⟨none⟩
    | none => (⟨none⟩ : HallucinationReductionCfg)
  let orchestration :=
    match chat_controls with
    | some cc => cc.orchestrationConfiguration.getD ⟨none⟩
    | none => (⟨none⟩ : OrchestrationCfg)
  let topic_configs :=
    match chat_controls with
    | some cc => cc.topicConfigurations.getD []
    | none => ([] : List TopicCfg)
  [("blocked_phrases_count", .n (blocked_phrases_config.blockedPhrases.getD []).length),
   ("blocked_phrases", .s (String.intercalate "; "
      (blocked_phrases_config.blockedPhrases.getD []))),
   ("blocked_phrases_system_message", .s
      (blocked_phrases_config.systemMessageOverride.getD "N/A")),
   ("creator_mode_control", .s (creator_mode.creatorModeControl.getD "N/A")),
   ("hallucination_reduction_control", .s
      (hallucination_reduction.hallucinationReductionControl.getD "N/A")),
   ("orchestration_control", .s (orchestration.control.getD "N/A")),
   ("response_scope", .s (match chat_controls with
      | some cc => cc.responseScope.getD "N/A"
      | none => "N/A")),
   ("topic_count", .n topic_configs.length),
   ("topic_names", .s (String.intercalate ", "
      (topic_configs.map (fun t => t.name.getD "N/A")))),
   ("topic_descriptions", .s (String.intercalate " | "
      (topic_configs.map (fun t => (t.name.getD "N/A") ++ ": " ++
        (t.description.getD "N/A")))))]

/-- Error, index and child-resource section of the global row (source
sections `ERROR DETAILS`, `INDEX`, `DATA SOURCES`, `RETRIEVERS`, `PLUGINS`). -/
def globalRowResourceSection (app : App) (index_id : Option String)
    (data_sources : List DataSource) (retrievers : List Retriever)
    (plugins : List Plugin) : Row :=
  [("error_code", .s ((app.errorDetail.getD ⟨none, none⟩).errorCode.getD "N/A")),
   ("error_message", .s ((app.errorDetail.getD ⟨none, none⟩).errorMessage.getD "N/A")),
   ("index_id", .s (orNA index_id)),
   ("data_source_count", .n data_sources.length),
   ("data_source_ids", .s (String.intercalate ", "
      (data_sources.map (fun ds => ds.dataSourceId)))),
   ("data_source_types", .s (String.intercalate ", "
      (data_sources.map (fun ds => ds.type.getD "N/A")))),
   ("data_source_names", .s (String.intercalate ", "
      (data_sources.map (fun ds => ds.displayName.getD "N/A")))),
   ("data_source_statuses", .s (String.intercalate ", "
      (data_sources.map (fun ds => ds.status.getD "N/A")))),
   ("retriever_count", .n retrievers.length),
   ("retriever_ids", .s (String.intercalate ", "
      (retrievers.map (fun r => r.retrieverId)))),
   ("retriever_types", .s (String.intercalate ", "
      (retrievers.map (fun r => r.type.getD "N/A")))),
   ("retriever_statuses", .s (String.intercalate ", "
      (retrievers.map (fun r => r.status.getD "N/A")))),
   ("plugin_count", .n plugins.length),
   ("plugin_ids", .s (String.intercalate ", "
      (plugins.map (fun p => p.pluginId)))),
   ("plugin_types", .s (String.intercalate ", "
      (plugins.map (fun p => p.type.getD "N/A")))),
   ("plugin_statuses", .s (String.intercalate ", "
      (plugins.map (fun p => p.status.getD "N/A"))))]

/-- Metadata section of the global row (source section `METADATA`). -/
def globalRowMetaSection (export_timestamp aws_region : String)
    (expected_account : Option String) : Row :=
  [("export_timestamp", .s export_timestamp),
   ("aws_region", .s aws_region),
   ("aws_account", .s (expected_account.getD "N/A"))]

/-- Embedding of `_create_global_row` (enhanced script): the 69-column row
dict, in the source's literal insertion order (split here into the source's
own commented sections), together with the updated user cache and the number
of `describe_user` lookups performed. -/
def _create_global_row (describeUser : String → String → Option DescribeUserResponse)
    (identity_store_id : Option String) (aws_region : String)
    (expected_account : Option String) (export_timestamp : String)
    (cache : UserCache) (app : App) (qapp : Option Qapp)
    (data_sources : List DataSource) (retrievers : List Retriever)
    (plugins : List Plugin) (index_id : Option String)
    (chat_controls : Option ChatControls) : Row × UserCache × Nat :=
  let creator_id :=
    match qapp with
    | some q => q.createdBy.getD "N/A"
    | none => "N/A"
  let updater_id :=
    match qapp with
    | some q => q.updatedBy.getD "N/A"
    | none => "N/A"
  let cres := get_user_details describeUser identity_store_id cache creator_id
  let ures := get_user_details describeUser identity_store_id cres.2.1 updater_id
  (globalRowQappSection qapp creator_id cres.1 updater_id ures.1 ++
     globalRowAppSection app identity_store_id ++
     globalRowControlsSection chat_controls ++
     globalRowResourceSection app index_id data_sources retrievers plugins ++
     globalRowMetaSection export_timestamp aws_region expected_account,
   ures.2.1, cres.2.2 + ures.2.2)


/-- The remote environment of one run of the enhanced exporter.  Paged list
calls provide their pages up front (`none` = a `ClientError` somewhere in the
paging loop); detail calls are keyed by the id the source passes. -/
structure Env where
  listInstances : Option (List String)
  describeUser : String → String → Option DescribeUserResponse
  listIndices : String → Option (List String)
  qappsPages : String → Option (List (List Qapp))
  dataSourcePages : String → String → Option (List (List DataSource))
  dataSourceDetail : String → Option DataSource
  retrieverPages : String → Option (List (List Retriever))
  retrieverDetail : String → Option Retriever
  pluginPages : String → Option (List (List Plugin))
  pluginDetail : String → Option Plugin
  chatControlsOf : String → Option ChatControls

/-- The exporter's mutable state during `export_all_data`:
`self.identity_store_id`, `self.user_cache`, and a ghost counter of
`sso-admin list_instances` invocations. -/
structure ExportState where
  identity_store_id : Option String
  user_cache : UserCache
  sso_calls : Nat
deriving Repr

/-- Run-level configuration read by `export_all_data` and `_create_global_row`. -/
structure ExportConfig where
  include_empty_apps : Bool
  aws_region : String
  expected_account : Option String
  export_timestamp : String

/-- The identity-store discovery step at the top of the per-application loop
(`if not self.identity_store_id: ...` in `export_all_data`): discovery runs
only while the stored id is falsy, only for `AWS_IAM_IDC` applications with a
truthy identity-center ARN, and stores whatever `get_identity_store_id`
returns (possibly `none`). -/
def discoverStep (env : Env) (st : ExportState) (app : App) : ExportState :=
  if isFalsy st.identity_store_id then
    if app.identityType == some "AWS_IAM_IDC" then
      match app.identityCenterApplicationArn with
      | some arn =>
        if arn == "" then st
        else
          { st with
            identity_store_id := get_identity_store_id env.listInstances arn,
            sso_calls := st.sso_calls + 1 }
      | none => st
    else st
  else st

/-- The `for qapp in qapps` row loop of `export_all_data`, threading the user
cache through `_create_global_row`. -/
def appendRows (describeUser : String → String → Option DescribeUserResponse)
    (identity_store_id : Option String) (cfg : ExportConfig) (app : App)
    (data_sources : List DataSource) (retrievers : List Retriever)
    (plugins : List Plugin) (index_id : Option String)
    (chat_controls : Option ChatControls) :
    UserCache → List Qapp → List Row × UserCache
  | cache, [] => ([], cache)
  | cache, qapp :: rest =>
    let res := _create_global_row describeUser identity_store_id cfg.aws_region
      cfg.expected_account cfg.export_timestamp cache app (some qapp)
      data_sources retrievers plugins index_id chat_controls
    let more := appendRows describeUser identity_store_id cfg app data_sources
      retrievers plugins index_id chat_controls res.2.1 rest
    (res.1 :: more.1, more.2)

/-- The body of the per-application loop of `export_all_data`: discovery,
index lookup, the five child fetches, then row creation (`if qapps: ...
elif include_empty: ...`). -/
def processApp (env : Env) (cfg : ExportConfig) (st : ExportState) (app : App) :
    List Row × ExportState :=
  let app_id := app.applicationId.getD "N/A"
  let st1 := discoverStep env st app
  let index_id :=
    match env.listIndices app_id with
    | some (i :: _) => some i
    | _ => none
  let qapps := get_qapps (env.qappsPages app_id)
  let data_sources :=
    match index_id with
    | some idx => get_data_sources (env.dataSourcePages app_id idx) env.dataSourceDetail
    | none => []
  let retrievers := get_retrievers (env.retrieverPages app_id) env.retrieverDetail
  let plugins := get_plugins (env.pluginPages app_id) env.pluginDetail
  let chat_controls := env.chatControlsOf app_id
  match qapps with
  | [] =>
    if cfg.include_empty_apps then
      let res := _create_global_row env.describeUser st1.identity_store_id
        cfg.aws_region cfg.expected_account cfg.export_timestamp st1.user_cache
        app none data_sources retrievers plugins index_id chat_controls
      ([res.1], { st1 with user_cache := res.2.1 })
    else ([], st1)
  | _ :: _ =>
    let res := appendRows env.describeUser st1.identity_store_id cfg app
      data_sources retrievers plugins index_id chat_controls st1.user_cache qapps
    (res.1, { st1 with user_cache := res.2 })

/-- The `for app in applications` loop of `export_all_data`. -/
def exportLoop (env : Env) (cfg : ExportConfig) :
    ExportState → List App → List Row × ExportState
  | st, [] => ([], st)
  | st, app :: rest =>
    let res := processApp env cfg st app
    let more := exportLoop env cfg res.2 rest
    (res.1 ++ more.1, more.2)

/-- Embedding of `export_all_data` (enhanced script), applied to the already
fetched application list, starting from the constructor state (no identity
store id, empty user cache). -/
def export_all_data (env : Env) (cfg : ExportConfig) (applications : List App) :
    List Row × ExportState :=
  exportLoop env cfg ⟨none, [], 0⟩ applications

/-- Embedding of the enhanced `export_to_csv`: no file for empty data;
otherwise the header is the first record's key order, each row is projected
onto the header (`csv.DictWriter` with default `extrasaction`: a row holding
a key outside the header raises, which the source catches and reports as a
failed export — modelled as `none`). -/
def export_to_csv (data : List Row) : Option (List String × List (List Val)) :=
  match data with
  | [] => none
  | first :: _ =>
    let fieldnames := rowKeys first
    if data.all (fun row => row.all (fun kv => fieldnames.contains kv.1)) then
      some (fieldnames,
        data.map (fun row => fieldnames.map (fun c => (rowGet row c).getD (.s ""))))
    else none

end Enhanced

namespace QappsInfo

/-- Embedding of `get_qapps_for_application` (get_qapps_info.py) and of
`get_qapps` (get_qbusiness_global.py): every listed library item is hydrated
via `get_library_item`, falling back to the listed summary item when the
detail call fails; a failing list call yields `[]`. -/
def get_qapps_for_application (pages : Option (List (List Qapp)))
    (get_library_item : String → Option Qapp) : List Qapp :=
  match pages with
  | none => []
  | some ps =>
    ps.flatMap (fun items =>
      items.map (fun item => (get_library_item item.libraryItemId).getD item))

/-- Q Business section of the base data row. -/
def dataRowAppSection (app : App) : Row :=
  [("qbusiness_app_name", .s (app.displayName.getD (app.applicationId.getD "N/A"))),
   ("qbusiness_app_id", .s (app.applicationId.getD "N/A")),
   ("qbusiness_status", .s (app.status.getD "N/A")),
   ("qbusiness_identity_type", .s (app.identityType.getD "N/A")),
   ("qbusiness_created_at", .s (app.createdAt.getD "N/A")),
   ("qbusiness_updated_at", .s (app.updatedAt.getD "N/A")),
   ("qbusiness_encryption", .s ((app.encryptionConfiguration.getD ⟨none⟩).kmsKeyId.getD
      "AWS Managed"))]

/-- Q App section of the base data row (`row.update` with a Q App present). -/
def dataRowQappSection (q : Qapp) : Row :=
  [("qapp_name", .s (q.title.getD q.libraryItemId)),
   ("qapp_library_item_id", .s q.libraryItemId),
   ("qapp_id", .s (q.appId.getD "N/A")),
   ("qapp_version", .s (q.appVersion.getD "N/A")),
   ("qapp_status", .s (q.status.getD "N/A")),
   ("user_count", .n (q.userCount.getD 0)),
   ("owner_created_by", .s (q.createdBy.getD "N/A")),
   ("created_at", .s (q.createdAt.getD "N/A")),
   ("updated_by", .s (q.updatedBy.getD "N/A")),
   ("updated_at", .s (q.updatedAt.getD "N/A")),
   ("rating_count", .n (q.ratingCount.getD 0)),
   ("is_verified", .b (q.isVerified.getD false)),
   ("is_rated_by_user", .b (q.isRatedByUser.getD false)),
   ("description", .s (q.description.getD "N/A")),
   ("categories", .s (String.intercalate ", "
      ((q.categories.getD []).map (fun cat => cat.title.getD ""))))]

/-- Q App section of the base data row when no Q App exists
(`row.update` in the `else` branch). -/
def dataRowNoQappSection : Row :=
  [("qapp_name", .s "No Q Apps"),
   ("qapp_library_item_id", .s "N/A"),
   ("qapp_id", .s "N/A"),
   ("qapp_version", .s "N/A"),
   ("qapp_status", .s "N/A"),
   ("user_count", .n 0),
   ("owner_created_by", .s "N/A"),
   ("created_at", .s "N/A"),
   ("updated_by", .s "N/A"),
   ("updated_at", .s "N/A"),
   ("rating_count", .n 0),
   ("is_verified", .b false),
   ("is_rated_by_user", .b false),
   ("description", .s "N/A"),
   ("categories", .s "N/A")]

/-- Embedding of `_create_data_row` (get_qapps_info.py): the 25-column row
dict in its literal insertion order (initial dict, then the Q App
`row.update`, then the metadata `row.update`). -/
def _create_data_row (aws_region : String) (expected_account : Option String)
    (retrieval_timestamp : String) (app : App) (qapp : Option Qapp) : Row :=
  dataRowAppSection app ++
    (match qapp with
     | some q => dataRowQappSection q
     | none => dataRowNoQappSection) ++
    [("retrieval_timestamp", .s retrieval_timestamp),
     ("aws_region", .s aws_region),
     ("aws_account", .s (expected_account.getD "N/A"))]

/-- The per-application row block of `retrieve_all_data`
(`if qapps: ... elif include_empty: ...`). -/
def rowsForApp (include_empty : Bool) (aws_region : String)
    (expected_account : Option String) (retrieval_timestamp : String)
    (app : App) (qapps : List Qapp) : List Row :=
  match qapps with
  | [] =>
    if include_empty then
      [_create_data_row aws_region expected_account retrieval_timestamp app none]
    else []
  | _ :: _ =>
    qapps.map (fun qapp =>
      _create_data_row aws_region expected_account retrieval_timestamp app (some qapp))

/-- Embedding of `retrieve_all_data` (get_qapps_info.py), applied to the
already fetched application list; `qappsOf` is the result of
`get_qapps_for_application` per application id. -/
def retrieve_all_data (include_empty : Bool) (aws_region : String)
    (expected_account : Option String) (retrieval_timestamp : String)
    (qappsOf : String → List Qapp) (applications : List App) : List Row :=
  applications.flatMap (fun app =>
    rowsForApp include_empty aws_region expected_account retrieval_timestamp app
      (qappsOf (app.applicationId.getD "N/A")))

/-- The hard-coded `all_fieldnames` list of the base `export_to_csv`. -/
def all_fieldnames : List String :=
  ["qapp_name", "user_count", "owner_created_by",
   "qbusiness_app_name", "qbusiness_app_id", "qbusiness_status",
   "qbusiness_identity_type", "qbusiness_created_at", "qbusiness_updated_at",
   "qbusiness_encryption", "qapp_library_item_id", "qapp_id",
   "qapp_version", "qapp_status", "created_at", "updated_by", "updated_at",
   "rating_count", "is_verified", "is_rated_by_user",
   "description", "categories",
   "retrieval_timestamp", "aws_region", "aws_account"]

/-- Embedding of the base `export_to_csv` (get_qapps_info.py): no file for
empty data; the header is `all_fieldnames` filtered by the column config
(`column_config.get(col, True)`; an empty config keeps everything); rows are
projected onto the header (`csv.DictWriter` with `extrasaction='ignore'`,
missing keys filled with the empty-string `restval`). -/
def export_to_csv (column_config : List (String × Bool)) (data : List Row) :
    Option (List String × List (List Val)) :=
  match data with
  | [] => none
  | _ :: _ =>
    let fieldnames :=
      if column_config.isEmpty then all_fieldnames
      else all_fieldnames.filter (fun col =>
        ((column_config.find? (fun kv => kv.1 == col)).map (fun kv => kv.2)).getD true)
    some (fieldnames,
      data.map (fun row => fieldnames.map (fun c => (rowGet row c).getD (.s ""))))

end QappsInfo

/-- The fixed key list of every row built by `_create_global_row`. -/
def globalRowFieldnames : List String :=
  ["qapp_name", "qapp_id", "qapp_library_item_id", "qapp_version", "qapp_status",
   "qapp_user_count", "qapp_creator_user_id", "qapp_creator_username",
   "qapp_creator_email", "qapp_creator_display_name", "qapp_created_at",
   "qapp_updater_user_id", "qapp_updater_username", "qapp_updater_email",
   "qapp_updated_at", "qapp_rating_count", "qapp_is_verified",
   "qapp_is_rated_by_user", "qapp_description", "qapp_categories",
   "app_name", "app_id", "app_arn", "app_description", "app_status",
   "app_created_at", "app_updated_at", "identity_type", "identity_center_arn",
   "identity_store_id", "iam_identity_provider_arn", "client_ids_for_oidc",
   "role_arn", "encryption_kms_key", "attachments_mode", "auto_subscribe",
   "auto_subscribe_default", "personalization_mode", "qapps_mode",
   "quicksight_namespace", "blocked_phrases_count", "blocked_phrases",
   "blocked_phrases_system_message", "creator_mode_control",
   "hallucination_reduction_control", "orchestration_control", "response_scope",
   "topic_count", "topic_names", "topic_descriptions", "error_code",
   "error_message", "index_id", "data_source_count", "data_source_ids",
   "data_source_types", "data_source_names", "data_source_statuses",
   "retriever_count", "retriever_ids", "retriever_types", "retriever_statuses",
   "plugin_count", "plugin_ids", "plugin_types", "plugin_statuses",
   "export_timestamp", "aws_region", "aws_account"]

/-- The row `_create_global_row` produces for the fully-absent tuple: every
field holds its defined placeholder. -/
def globalPlaceholderRow : Row :=
  [("qapp_name", .s "No Q Apps"), ("qapp_id", .s "N/A"),
   ("qapp_library_item_id", .s "N/A"), ("qapp_version", .s "N/A"),
   ("qapp_status", .s "N/A"), ("qapp_user_count", .n 0),
   ("qapp_creator_user_id", .s "N/A"), ("qapp_creator_username", .s "N/A"),
   ("qapp_creator_email", .s "N/A"), ("qapp_creator_display_name", .s "N/A"),
   ("qapp_created_at", .s "N/A"), ("qapp_updater_user_id", .s "N/A"),
   ("qapp_updater_username", .s "N/A"), ("qapp_updater_email", .s "N/A"),
   ("qapp_updated_at", .s "N/A"), ("qapp_rating_count", .n 0),
   ("qapp_is_verified", .b false), ("qapp_is_rated_by_user", .b false),
   ("qapp_description", .s "N/A"), ("qapp_categories", .s "N/A"),
   ("app_name", .s "N/A"), ("app_id", .s "N/A"), ("app_arn", .s "N/A"),
   ("app_description", .s "N/A"), ("app_status", .s "N/A"),
   ("app_created_at", .s "N/A"), ("app_updated_at", .s "N/A"),
   ("identity_type", .s "N/A"), ("identity_center_arn", .s "N/A"),
   ("identity_store_id", .s "N/A"), ("iam_identity_provider_arn", .s "N/A"),
   ("client_ids_for_oidc", .s ""), ("role_arn", .s "N/A"),
   ("encryption_kms_key", .s "AWS Managed"), ("attachments_mode", .s "N/A"),
   ("auto_subscribe", .s "N/A"), ("auto_subscribe_default", .s "N/A"),
   ("personalization_mode", .s "N/A"), ("qapps_mode", .s "N/A"),
   ("quicksight_namespace", .s "N/A"), ("blocked_phrases_count", .n 0),
   ("blocked_phrases", .s ""), ("blocked_phrases_system_message", .s "N/A"),
   ("creator_mode_control", .s "N/A"),
   ("hallucination_reduction_control", .s "N/A"),
   ("orchestration_control", .s "N/A"), ("response_scope", .s "N/A"),
   ("topic_count", .n 0), ("topic_names", .s ""), ("topic_descriptions", .s ""),
   ("error_code", .s "N/A"), ("error_message", .s "N/A"),
   ("index_id", .s "N/A"), ("data_source_count", .n 0),
   ("data_source_ids", .s ""), ("data_source_types", .s ""),
   ("data_source_names", .s ""), ("data_source_statuses", .s ""),
   ("retriever_count", .n 0), ("retriever_ids", .s ""),
   ("retriever_types", .s ""), ("retriever_statuses", .s ""),
   ("plugin_count", .n 0), ("plugin_ids", .s ""), ("plugin_types", .s ""),
   ("plugin_statuses", .s ""), ("export_timestamp", .s "TS"),
   ("aws_region", .s "us-east-1"), ("aws_account", .s "N/A")]

/-- The row `_create_data_row` produces for the fully-absent tuple. -/
def dataPlaceholderRow : Row :=
  [("qbusiness_app_name", .s "N/A"), ("qbusiness_app_id", .s "N/A"),
   ("qbusiness_status", .s "N/A"), ("qbusiness_identity_type", .s "N/A"),
   ("qbusiness_created_at", .s "N/A"), ("qbusiness_updated_at", .s "N/A"),
   ("qbusiness_encryption", .s "AWS Managed"), ("qapp_name", .s "No Q Apps"),
   ("qapp_library_item_id", .s "N/A"), ("qapp_id", .s "N/A"),
   ("qapp_version", .s "N/A"), ("qapp_status", .s "N/A"),
   ("user_count", .n 0), ("owner_created_by", .s "N/A"),
   ("created_at", .s "N/A"), ("updated_by", .s "N/A"),
   ("updated_at", .s "N/A"), ("rating_count", .n 0),
   ("is_verified", .b false), ("is_rated_by_user", .b false),
   ("description", .s "N/A"), ("categories", .s "N/A"),
   ("retrieval_timestamp", .s "TS"), ("aws_region", .s "us-east-1"),
   ("aws_account", .s "N/A")]

/-- C8: row flattening is total and placeholder-complete.  For every input
tuple both row builders return a row with the same fixed field set, and at
the fully-absent tuple (empty application dict, no Q App child, empty
collections, falsy chat controls, no identity store, empty cache) every
field holds its defined placeholder. -/
theorem row_flattening_placeholders :
    (∀ (describeUser : String → String → Option DescribeUserResponse)
       (sid : Option String) (region : String) (account : Option String)
       (ts : String) (cache : UserCache) (app : App) (qapp : Option Qapp)
       (ds : List DataSource) (rs : List Retriever) (ps : List Plugin)
       (idx : Option String) (cc : Option ChatControls),
       rowKeys (Enhanced._create_global_row describeUser sid region account ts
           cache app qapp ds rs ps idx cc).1 = globalRowFieldnames) ∧
    (Enhanced._create_global_row (fun _ _ => none) none "us-east-1" none "TS"
        [] emptyApp none [] [] [] none none).1 = globalPlaceholderRow ∧
    QappsInfo._create_data_row "us-east-1" none "TS" emptyApp none
      = dataPlaceholderRow := by
  refine ⟨?_, rfl, rfl⟩
  intro describeUser sid region account ts cache app qapp ds rs ps idx cc
  rfl

/-- A row built for a Q App child carries `qapp_name = "Q App " ++ libraryItemId`. -/
theorem global_row_qapp_name (describeUser : String → String → Option DescribeUserResponse)
    (sid : Option String) (region : String) (account : Option String) (ts : String)
    (cache : UserCache) (app : App) (q : Qapp) (ds : List DataSource)
    (rs : List Retriever) (ps : List Plugin) (idx : Option String)
    (cc : Option ChatControls) :
    rowGet (Enhanced._create_global_row describeUser sid region account ts cache
        app (some q) ds rs ps idx cc).1 "qapp_name"
      = some (.s ("Q App " ++ q.libraryItemId)) := rfl

/-- The placeholder row carries `qapp_name = "No Q Apps"`. -/
theorem global_row_no_qapp_name (describeUser : String → String → Option DescribeUserResponse)
    (sid : Option String) (region : String) (account : Option String) (ts : String)
    (cache : UserCache) (app : App) (ds : List DataSource)
    (rs : List Retriever) (ps : List Plugin) (idx : Option String)
    (cc : Option ChatControls) :
    rowGet (Enhanced._create_global_row describeUser sid region account ts cache
        app none ds rs ps idx cc).1 "qapp_name"
      = some (.s "No Q Apps") := rfl

/-- `appendRows` emits exactly one row per Q App child. -/
theorem appendRows_length (describeUser : String → String → Option DescribeUserResponse)
    (sid : Option String) (cfg : Enhanced.ExportConfig) (app : App)
    (ds : List DataSource) (rs : List Retriever) (ps : List Plugin)
    (idx : Option String) (cc : Option ChatControls) (cache : UserCache)
    (qapps : List Qapp) :
    (Enhanced.appendRows describeUser sid cfg app ds rs ps idx cc cache qapps).1.length
      = qapps.length := by
  induction qapps generalizing cache with
  | nil => rfl
  | cons q rest ih =>
    simp only [Enhanced.appendRows, List.length_cons]
    rw [ih]

/-- Every row emitted by `appendRows` is a per-Q-App row. -/
theorem appendRows_qapp_name (describeUser : String → String → Option DescribeUserResponse)
    (sid : Option String) (cfg : Enhanced.ExportConfig) (app : App)
    (ds : List DataSource) (rs : List Retriever) (ps : List Plugin)
    (idx : Option String) (cc : Option ChatControls) (cache : UserCache)
    (qapps : List Qapp) :
    ∀ r ∈ (Enhanced.appendRows describeUser sid cfg app ds rs ps idx cc cache qapps).1,
      ∃ q ∈ qapps, rowGet r "qapp_name" = some (.s ("Q App " ++ q.libraryItemId)) := by
  induction qapps generalizing cache with
  | nil => intro r hr; simp [Enhanced.appendRows] at hr
  | cons q rest ih =>
    intro r hr
    simp only [Enhanced.appendRows, List.mem_cons] at hr
    rcases hr with hr | hr
    · exact ⟨q, List.mem_cons_self q rest, by rw [hr]; exact global_row_qapp_name ..⟩
    · obtain ⟨q2, hq2, hname⟩ := ih _ r hr
      exact ⟨q2, List.mem_cons_of_mem q hq2, hname⟩

/-- C1: for a parent whose Q Apps fetch returns k app-children, the
aggregation loop body emits exactly k rows when k > 0 (each one a per-app
row), exactly one placeholder row when k = 0 and empty-inclusion is enabled,
and no row when k = 0 and the flag is disabled — never a mix of placeholder
and per-app rows. -/
theorem row_multiplicity_per_parent (env : Enhanced.Env) (cfg : Enhanced.ExportConfig)
    (st : Enhanced.ExportState) (app : App) :
    (Enhanced.processApp env cfg st app).1.length
      = (if (Enhanced.get_qapps (env.qappsPages (app.applicationId.getD "N/A"))).length = 0
         then (if cfg.include_empty_apps then 1 else 0)
         else (Enhanced.get_qapps (env.qappsPages (app.applicationId.getD "N/A"))).length) ∧
    (Enhanced.get_qapps (env.qappsPages (app.applicationId.getD "N/A")) ≠ [] →
      ∀ r ∈ (Enhanced.processApp env cfg st app).1,
        ∃ q ∈ Enhanced.get_qapps (env.qappsPages (app.applicationId.getD "N/A")),
          rowGet r "qapp_name" = some (.s ("Q App " ++ q.libraryItemId))) ∧
    (Enhanced.get_qapps (env.qappsPages (app.applicationId.getD "N/A")) = [] →
      cfg.include_empty_apps = true →
      ∃ r, (Enhanced.processApp env cfg st app).1 = [r] ∧
        rowGet r "qapp_name" = some (.s "No Q Apps")) ∧
    (Enhanced.get_qapps (env.qappsPages (app.applicationId.getD "N/A")) = [] →
      cfg.include_empty_apps = false →
      (Enhanced.processApp env cfg st app).1 = []) := by
  cases hq : Enhanced.get_qapps (env.qappsPages (app.applicationId.getD "N/A")) with
  | nil =>
    refine ⟨?_, by simp [hq], ?_, ?_⟩
    · by_cases hinc : cfg.include_empty_apps <;>
        simp [Enhanced.processApp, hq, hinc]
    · intro _ hinc
      refine ⟨(Enhanced._create_global_row env.describeUser
        (Enhanced.discoverStep env st app).identity_store_id cfg.aws_region
        cfg.expected_account cfg.export_timestamp
        (Enhanced.discoverStep env st app).user_cache app none
        (match (match env.listIndices (app.applicationId.getD "N/A") with
                | some (i :: _) => some i
                | _ => none) with
         | some idx => Enhanced.get_data_sources
             (env.dataSourcePages (app.applicationId.getD "N/A") idx) env.dataSourceDetail
         | none => [])
        (Enhanced.get_retrievers (env.retrieverPages (app.applicationId.getD "N/A"))
          env.retrieverDetail)
        (Enhanced.get_plugins (env.pluginPages (app.applicationId.getD "N/A"))
          env.pluginDetail)
        (match env.listIndices (app.applicationId.getD "N/A") with
         | some (i :: _) => some i
         | _ => none)
        (env.chatControlsOf (app.applicationId.getD "N/A"))).1, ?_, ?_⟩
      · simp [Enhanced.processApp, hq, hinc]
      · exact global_row_no_qapp_name ..
    · intro _ hinc
      simp [Enhanced.processApp, hq, hinc]
  | cons q rest =>
    refine ⟨?_, ?_, by intro h; exact absurd h (by simp), by
      intro h; exact absurd h (by simp)⟩
    · simp only [Enhanced.processApp, hq]
      simp [appendRows_length]
    · intro _ r hr
      simp only [Enhanced.processApp, hq] at hr
      exact appendRows_qapp_name _ _ _ _ _ _ _ _ _ _ _ r hr

/-- A Q App summary consisting only of its library item id. -/
def mkQapp (libraryItemId : String) : Qapp :=
  ⟨libraryItemId, none, none, none, none, none, none, none,
   none, none, none, none, none, none, none⟩

/-- A concrete environment whose Q Apps fetch returns two items. -/
def envC1 : Enhanced.Env :=
  { listInstances := none
    describeUser := fun _ _ => none
    listIndices := fun _ => none
    qappsPages := fun _ => some [[mkQapp "q1", mkQapp "q2"]]
    dataSourcePages := fun _ _ => none
    dataSourceDetail := fun _ => none
    retrieverPages := fun _ => none
    retrieverDetail := fun _ => none
    pluginPages := fun _ => none
    pluginDetail := fun _ => none
    chatControlsOf := fun _ => none }

/-- The same environment with an empty Q Apps fetch. -/
def envC1b : Enhanced.Env := { envC1 with qappsPages := fun _ => some [] }

/-- A run configuration with empty-inclusion enabled. -/
def cfgC1 : Enhanced.ExportConfig :=
  { include_empty_apps := true
    aws_region := "us-east-1"
    expected_account := none
    export_timestamp := "TS" }

/-- The constructor state of the exporter. -/
def stC1 : Enhanced.ExportState := ⟨none, [], 0⟩

/-- Witness for C1: two fetched Q Apps yield two rows; zero fetched Q Apps
with empty-inclusion enabled yield exactly one placeholder row. -/
theorem row_multiplicity_per_parent_witness :
    (Enhanced.processApp envC1 cfgC1 stC1 emptyApp).1.length = 2 ∧
    (∃ r, (Enhanced.processApp envC1b cfgC1 stC1 emptyApp).1 = [r] ∧
       rowGet r "qapp_name" = some (.s "No Q Apps")) := by
  constructor
  · exact (row_multiplicity_per_parent envC1 cfgC1 stC1 emptyApp).1.trans (by decide)
  · exact (row_multiplicity_per_parent envC1b cfgC1 stC1 emptyApp).2.2.1
      (by decide) (by decide)

/-- C4: per-item detail failure falls back to the summary item.  For every
page list and detail oracle, the collected sequence has exactly one entry per
listed item, in listing order; at every position the entry is the hydrated
detail when the detail call succeeds and the original summary item when it
fails. -/
theorem paged_detail_fallback (pss : List (List Qapp))
    (get_library_item : String → Option Qapp) :
    (QappsInfo.get_qapps_for_application (some pss) get_library_item).length
      = (pss.flatMap (fun l => l)).length ∧
    ∀ (i : Nat) (item : Qapp), (pss.flatMap (fun l => l))[i]? = some item →
      (get_library_item item.libraryItemId = none →
        (QappsInfo.get_qapps_for_application (some pss) get_library_item)[i]?
          = some item) ∧
      (∀ d, get_library_item item.libraryItemId = some d →
        (QappsInfo.get_qapps_for_application (some pss) get_library_item)[i]?
          = some d) := by
  have hmap : QappsInfo.get_qapps_for_application (some pss) get_library_item
      = (pss.flatMap (fun l => l)).map
          (fun item => (get_library_item item.libraryItemId).getD item) := by
    simp [QappsInfo.get_qapps_for_application, List.map_flatMap]
  constructor
  · rw [hmap, List.length_map]
  · intro i item hi
    constructor
    · intro hf
      rw [hmap, List.getElem?_map, hi]
      simp [hf]
    · intro d hf
      rw [hmap, List.getElem?_map, hi]
      simp [hf]

/-- Five listed summary items for the C4 witness. -/
def pagesC4 : List (List Qapp) :=
  [[mkQapp "q1", mkQapp "q2", mkQapp "q3", mkQapp "q4", mkQapp "q5"]]

/-- A detail oracle that fails exactly on the third item. -/
def getLibC4 : String → Option Qapp := fun libraryItemId =>
  if libraryItemId == "q3" then none
  else some { mkQapp libraryItemId with title := some "hydrated" }

/-- Witness for C4: with five listed items and the third failing detail
hydration, the result still has five items, the third equals its summary
form and the first is its hydrated detail. -/
theorem paged_detail_fallback_witness :
    (QappsInfo.get_qapps_for_application (some pagesC4) getLibC4).length = 5 ∧
    (QappsInfo.get_qapps_for_application (some pagesC4) getLibC4)[2]?
      = some (mkQapp "q3") ∧
    (QappsInfo.get_qapps_for_application (some pagesC4) getLibC4)[0]?
      = some { mkQapp "q1" with title := some "hydrated" } := by
  have h := paged_detail_fallback pagesC4 getLibC4
  refine ⟨by rw [h.1]; decide, ?_, ?_⟩
  · exact (h.2 2 (mkQapp "q3") (by decide)).1 (by decide)
  · exact (h.2 0 (mkQapp "q1") (by decide)).2
      { mkQapp "q1" with title := some "hydrated" } (by decide)

/-- An `AWS_IAM_IDC` application with an identity-center ARN. -/
def appC5 : App :=
  { emptyApp with
    identityType := some "AWS_IAM_IDC"
    identityCenterApplicationArn := some "arn1" }

/-- An environment whose `list_instances` discovery finds no instance and
whose other fetches are empty. -/
def envC5 : Enhanced.Env :=
  { listInstances := some []
    describeUser := fun _ _ => none
    listIndices := fun _ => none
    qappsPages := fun _ => some []
    dataSourcePages := fun _ _ => none
    dataSourceDetail := fun _ => none
    retrieverPages := fun _ => none
    retrieverDetail := fun _ => none
    pluginPages := fun _ => none
    pluginDetail := fun _ => none
    chatControlsOf := fun _ => none }

/-- A run configuration with empty-inclusion disabled. -/
def cfgC5 : Enhanced.ExportConfig :=
  { include_empty_apps := false
    aws_region := "us-east-1"
    expected_account := none
    export_timestamp := "TS" }

/-- Counterexample to C5: with two qualifying parents and a discovery call
that finds no instance, `list_instances` is invoked twice in one run — not
at most once. -/
theorem discovery_repeated_counterexample :
    (Enhanced.export_all_data envC5 cfgC5 [appC5, appC5]).2.sso_calls = 2 ∧
    ¬ (Enhanced.export_all_data envC5 cfgC5 [appC5, appC5]).2.sso_calls ≤ 1 := by
  constructor
  · decide
  · decide

/-- `processApp` changes only the user cache relative to its discovery step. -/
theorem processApp_state (env : Enhanced.Env) (cfg : Enhanced.ExportConfig)
    (st : Enhanced.ExportState) (app : App) :
    (Enhanced.processApp env cfg st app).2.identity_store_id
        = (Enhanced.discoverStep env st app).identity_store_id ∧
    (Enhanced.processApp env cfg st app).2.sso_calls
        = (Enhanced.discoverStep env st app).sso_calls := by
  simp only [Enhanced.processApp]
  cases hq : Enhanced.get_qapps (env.qappsPages (app.applicationId.getD "N/A")) with
  | nil => by_cases hinc : cfg.include_empty_apps <;> simp [hinc]
  | cons q rest => simp

/-- Discovery is skipped once the stored identity store id is truthy. -/
theorem discoverStep_not_falsy (env : Enhanced.Env) (st : Enhanced.ExportState)
    (app : App) (h : isFalsy st.identity_store_id = false) :
    Enhanced.discoverStep env st app = st := by
  unfold Enhanced.discoverStep
  simp [h]

/-- Each discovery step performs at most one `list_instances` call. -/
theorem discoverStep_sso_le (env : Enhanced.Env) (st : Enhanced.ExportState)
    (app : App) :
    (Enhanced.discoverStep env st app).sso_calls ≤ st.sso_calls + 1 := by
  unfold Enhanced.discoverStep
  by_cases h1 : isFalsy st.identity_store_id = true
  · simp only [h1, if_true]
    by_cases h2 : (app.identityType == some "AWS_IAM_IDC") = true
    · simp only [h2, if_true]
      cases harn : app.identityCenterApplicationArn with
      | none => simp
      | some arn =>
        by_cases h3 : (arn == "") = true <;> simp [h3]
    · simp [h2]
  · simp [h1]

/-- The discovery step either leaves the state unchanged or performs exactly
one `list_instances` call, storing its result. -/
theorem discoverStep_outcome (env : Enhanced.Env) (st : Enhanced.ExportState)
    (app : App) :
    Enhanced.discoverStep env st app = st ∨
    ∃ arn, app.identityCenterApplicationArn = some arn ∧
      Enhanced.discoverStep env st app
        = { st with
            identity_store_id := Enhanced.get_identity_store_id env.listInstances arn,
            sso_calls := st.sso_calls + 1 } := by
  unfold Enhanced.discoverStep
  by_cases h1 : isFalsy st.identity_store_id = true
  · simp only [h1, if_true]
    by_cases h2 : (app.identityType == some "AWS_IAM_IDC") = true
    · simp only [h2, if_true]
      cases harn : app.identityCenterApplicationArn with
      | none => exact Or.inl rfl
      | some arn =>
        by_cases h3 : (arn == "") = true
        · simp [h3]
        · simp only [h3, if_false]
          exact Or.inr ⟨arn, rfl, rfl⟩
    · simp only [h2, if_false]
      exact Or.inl rfl
  · simp [h1]

/-- Over a run, at most one discovery call happens per parent. -/
theorem exportLoop_sso_le (env : Enhanced.Env) (cfg : Enhanced.ExportConfig)
    (apps : List App) :
    ∀ st : Enhanced.ExportState,
      (Enhanced.exportLoop env cfg st apps).2.sso_calls ≤ st.sso_calls + apps.length := by
  induction apps with
  | nil => intro st; simp [Enhanced.exportLoop]
  | cons a rest ih =>
    intro st
    show (Enhanced.exportLoop env cfg (Enhanced.processApp env cfg st a).2 rest).2.sso_calls
      ≤ st.sso_calls + (a :: rest).length
    have h1 := ih (Enhanced.processApp env cfg st a).2
    have h2 := (processApp_state env cfg st a).2
    have h3 := discoverStep_sso_le env st a
    simp only [List.length_cons]
    omega

/-- Once the stored identity store id is truthy, the rest of the run performs
no further discovery calls. -/
theorem exportLoop_sso_frozen (env : Enhanced.Env) (cfg : Enhanced.ExportConfig)
    (apps : List App) :
    ∀ (st : Enhanced.ExportState) (s : String), st.identity_store_id = some s →
      s ≠ "" →
      (Enhanced.exportLoop env cfg st apps).2.sso_calls = st.sso_calls := by
  induction apps with
  | nil => intro st s _ _; rfl
  | cons a rest ih =>
    intro st s hstore hs
    show (Enhanced.exportLoop env cfg (Enhanced.processApp env cfg st a).2 rest).2.sso_calls
      = st.sso_calls
    have hfal : isFalsy st.identity_store_id = false := by
      rw [hstore]
      simpa [isFalsy] using hs
    have hds := discoverStep_not_falsy env st a hfal
    have hps := processApp_state env cfg st a
    have hstore2 : (Enhanced.processApp env cfg st a).2.identity_store_id = some s := by
      rw [hps.1, hds, hstore]
    have hsso2 : (Enhanced.processApp env cfg st a).2.sso_calls = st.sso_calls := by
      rw [hps.2, hds]
    rw [ih _ s hstore2 hs, hsso2]

/-- From the constructor state, when the environment's `list_instances` call
finds an instance with a non-empty id, the whole run makes at most one
discovery call. -/
theorem exportLoop_sso_init (env : Enhanced.Env) (cfg : Enhanced.ExportConfig)
    (i : String) (t : List String) (hinst : env.listInstances = some (i :: t))
    (hi : i ≠ "") (apps : List App) :
    ∀ st : Enhanced.ExportState, st.identity_store_id = none → st.sso_calls = 0 →
      (Enhanced.exportLoop env cfg st apps).2.sso_calls ≤ 1 := by
  induction apps with
  | nil =>
    intro st _ hsso
    simp [Enhanced.exportLoop, hsso]
  | cons a rest ih =>
    intro st hstore hsso
    show (Enhanced.exportLoop env cfg (Enhanced.processApp env cfg st a).2 rest).2.sso_calls ≤ 1
    have hps := processApp_state env cfg st a
    rcases discoverStep_outcome env st a with hds | ⟨arn, _, hds⟩
    · exact ih _ (by rw [hps.1, hds, hstore]) (by rw [hps.2, hds, hsso])
    · have hid : Enhanced.get_identity_store_id env.listInstances arn = some i := by
        rw [hinst]
        rfl
      have hstore2 : (Enhanced.processApp env cfg st a).2.identity_store_id = some i := by
        rw [hps.1, hds]
        exact hid
      have hsso2 : (Enhanced.processApp env cfg st a).2.sso_calls = 1 := by
        rw [hps.2, hds]
        simp [hsso]
      rw [exportLoop_sso_frozen env cfg rest _ i hstore2 hi, hsso2]

/-- C5 (amended): `list_instances` discovery is invoked at most once per
parent application, never again once a call has stored a non-empty identity
store id, and hence at most once per run whenever the environment's
`list_instances` response contains an instance with a non-empty id; but a
discovery attempt that yields no id may be repeated on later qualifying
parents, so the per-run total is bounded by the number of parents, not by
one. -/
theorem discovery_memoized_amended (env : Enhanced.Env) (cfg : Enhanced.ExportConfig) :
    (∀ (st : Enhanced.ExportState) (apps : List App),
       (Enhanced.exportLoop env cfg st apps).2.sso_calls ≤ st.sso_calls + apps.length) ∧
    (∀ (st : Enhanced.ExportState) (apps : List App) (s : String),
       st.identity_store_id = some s → s ≠ "" →
       (Enhanced.exportLoop env cfg st apps).2.sso_calls = st.sso_calls) ∧
    (∀ (apps : List App) (i : String) (t : List String),
       env.listInstances = some (i :: t) → i ≠ "" →
       (Enhanced.export_all_data env cfg apps).2.sso_calls ≤ 1) := by
  refine ⟨fun st apps => exportLoop_sso_le env cfg apps st,
    fun st apps s h1 h2 => exportLoop_sso_frozen env cfg apps st s h1 h2,
    fun apps i t h1 h2 => exportLoop_sso_init env cfg i t h1 h2 apps ⟨none, [], 0⟩ rfl rfl⟩

/-- The discovery environment of the C5 witness: one instance found. -/
def envC5succ : Enhanced.Env := { envC5 with listInstances := some ["d-123"] }

/-- Witness for C5 (amended): with a successful discovery, two qualifying
parents still trigger at most one `list_instances` call. -/
theorem discovery_memoized_amended_witness :
    (Enhanced.export_all_data envC5succ cfgC5 [appC5, appC5]).2.sso_calls ≤ 1 := by
  exact (discovery_memoized_amended envC5succ cfgC5).2.2 [appC5, appC5] "d-123" []
    rfl (by decide)

/-- Counterexample to C6: in the base exporter, without a column config the
header is the hard-coded `all_fieldnames` order, which differs from the first
record's key order; and with a config selecting one column the header still
has 25 columns, not the allow-list's one. -/
theorem csv_columns_counterexample :
    (QappsInfo.export_to_csv [] [dataPlaceholderRow]).map (fun p => p.1)
      = some QappsInfo.all_fieldnames ∧
    QappsInfo.all_fieldnames ≠ rowKeys dataPlaceholderRow ∧
    (QappsInfo.export_to_csv [("user_count", true)] [dataPlaceholderRow]).map
        (fun p => p.1.length) = some 25 ∧
    (25 : Nat) ≠ 1 := by
  refine ⟨rfl, by decide, rfl, by decide⟩

/-- C6 (amended): when the record sequence is empty, neither exporter writes
a file.  The enhanced exporter's header is the first record's key order (it
supports no column filtering).  The base exporter's header is always drawn
from its fixed built-in column list in that list's order: a supplied column
config drops exactly the built-in columns it maps to `false` (columns it
does not mention stay included), config entries naming unknown columns are
silently ignored, and every written row has exactly one cell per header
column. -/
theorem csv_export_amended :
    (∀ cfg : List (String × Bool), QappsInfo.export_to_csv cfg [] = none) ∧
    Enhanced.export_to_csv [] = none ∧
    (∀ (r : Row) (rs : List Row) (hdr : List String) (rows : List (List Val)),
       Enhanced.export_to_csv (r :: rs) = some (hdr, rows) → hdr = rowKeys r) ∧
    (∀ (cfg : List (String × Bool)) (r : Row) (rs : List Row)
       (hdr : List String) (rows : List (List Val)),
       QappsInfo.export_to_csv cfg (r :: rs) = some (hdr, rows) →
       hdr = QappsInfo.all_fieldnames.filter (fun col =>
         ((cfg.find? (fun kv => kv.1 == col)).map (fun kv => kv.2)).getD true)) ∧
    (∀ (cfg : List (String × Bool)) (c : String) (b : Bool) (data : List Row),
       QappsInfo.all_fieldnames.contains c = false →
       (QappsInfo.export_to_csv (cfg ++ [(c, b)]) data).map (fun p => p.1)
         = (QappsInfo.export_to_csv cfg data).map (fun p => p.1)) ∧
    (∀ (cfg : List (String × Bool)) (data : List Row)
       (hdr : List String) (rows : List (List Val)),
       QappsInfo.export_to_csv cfg data = some (hdr, rows) →
       ∀ row ∈ rows, row.length = hdr.length) := by
  have hbase : ∀ (cfg : List (String × Bool)) (r : Row) (rs : List Row),
      QappsInfo.export_to_csv cfg (r :: rs)
        = some (QappsInfo.all_fieldnames.filter (fun col =>
            ((cfg.find? (fun kv => kv.1 == col)).map (fun kv => kv.2)).getD true),
          (r :: rs).map (fun row =>
            (QappsInfo.all_fieldnames.filter (fun col =>
              ((cfg.find? (fun kv => kv.1 == col)).map (fun kv => kv.2)).getD true)).map
                (fun c => (rowGet row c).getD (.s "")))) := by
    intro cfg r rs
    simp only [QappsInfo.export_to_csv]
    by_cases hemp : cfg.isEmpty = true
    · have hcfg : cfg = [] := by
        cases cfg with
        | nil => rfl
        | cons x xs => simp at hemp
      subst hcfg
      rfl
    · simp only [Bool.not_eq_true] at hemp
      simp [hemp]
  refine ⟨fun cfg => rfl, rfl, ?_, ?_, ?_, ?_⟩
  · intro r rs hdr rows h
    simp only [Enhanced.export_to_csv] at h
    split at h
    · exact (congrArg Prod.fst (Option.some.inj h)).symm
    · exact absurd h (by simp)
  · intro cfg r rs hdr rows h
    rw [hbase cfg r rs] at h
    exact (Prod.mk.injEq .. ▸ Option.some.inj h).1.symm
  · intro cfg c b data hc
    cases data with
    | nil => rfl
    | cons r rs =>
      rw [hbase, hbase]
      have hfilter : ∀ col ∈ QappsInfo.all_fieldnames,
          ((((cfg ++ [(c, b)]).find? (fun kv => kv.1 == col)).map (fun kv => kv.2)).getD true)
            = (((cfg.find? (fun kv => kv.1 == col)).map (fun kv => kv.2)).getD true) := by
        intro col hcol
        have hcmem : c ∉ QappsInfo.all_fieldnames := by simpa using hc
        have hne : (c == col) = false := by
          rcases eq_or_ne c col with hceq | hcne
          · exact absurd (hceq ▸ hcol) hcmem
          · exact beq_eq_false_iff_ne.mpr hcne
        rw [List.find?_append]
        cases hcf : cfg.find? (fun kv => kv.1 == col) with
        | some kv => rfl
        | none => simp [List.find?, hne]
      have hfeq : QappsInfo.all_fieldnames.filter (fun col =>
            (((cfg ++ [(c, b)]).find? (fun kv => kv.1 == col)).map (fun kv => kv.2)).getD true)
          = QappsInfo.all_fieldnames.filter (fun col =>
            ((cfg.find? (fun kv => kv.1 == col)).map (fun kv => kv.2)).getD true) :=
        List.filter_congr (fun col hcol => by rw [hfilter col hcol])
      rw [hfeq]
  · intro cfg data hdr rows h
    cases data with
    | nil => exact absurd h (by simp [QappsInfo.export_to_csv])
    | cons r rs =>
      rw [hbase] at h
      have h1 := (Prod.mk.injEq .. ▸ Option.some.inj h).1
      have h2 := (Prod.mk.injEq .. ▸ Option.some.inj h).2
      intro row hrow
      rw [← h2] at hrow
      obtain ⟨d, _, hd⟩ := List.mem_map.mp hrow
      rw [← hd, List.length_map, ← h1]

/-- Witness for C6 (amended): the empty no-op, the enhanced first-record
header, and the base config filtering at concrete inputs. -/
theorem csv_export_amended_witness :
    QappsInfo.export_to_csv [] [] = none ∧
    (∃ hdr rows, Enhanced.export_to_csv [dataPlaceholderRow] = some (hdr, rows) ∧
       hdr = rowKeys dataPlaceholderRow) ∧
    (∃ hdr rows,
       QappsInfo.export_to_csv [("user_count", false)] [dataPlaceholderRow]
         = some (hdr, rows) ∧
       hdr = QappsInfo.all_fieldnames.filter (fun col =>
         ((([("user_count", false)] : List (String × Bool)).find?
             (fun kv => kv.1 == col)).map (fun kv => kv.2)).getD true)) := by
  refine ⟨csv_export_amended.1 [], ?_, ?_⟩
  · obtain ⟨hdr, rows, h⟩ : ∃ hdr rows,
        Enhanced.export_to_csv [dataPlaceholderRow] = some (hdr, rows) := ⟨_, _, rfl⟩
    exact ⟨hdr, rows, h, csv_export_amended.2.2.1 dataPlaceholderRow [] hdr rows h⟩
  · obtain ⟨hdr, rows, h⟩ : ∃ hdr rows,
        QappsInfo.export_to_csv [("user_count", false)] [dataPlaceholderRow]
          = some (hdr, rows) := ⟨_, _, rfl⟩
    exact ⟨hdr, rows, h,
      csv_export_amended.2.2.2.1 [("user_count", false)] dataPlaceholderRow [] hdr rows h⟩

/-- The global row records the retriever count of its aggregate tuple. -/
theorem global_row_retriever_count
    (describeUser : String → String → Option DescribeUserResponse)
    (sid : Option String) (region : String) (account : Option String) (ts : String)
    (cache : UserCache) (app : App) (qapp : Option Qapp) (ds : List DataSource)
    (rs : List Retriever) (ps : List Plugin) (idx : Option String)
    (cc : Option ChatControls) :
    rowGet (Enhanced._create_global_row describeUser sid region account ts cache
        app qapp ds rs ps idx cc).1 "retriever_count" = some (.n rs.length) := rfl

/-- The global row records the plugin count of its aggregate tuple. -/
theorem global_row_plugin_count
    (describeUser : String → String → Option DescribeUserResponse)
    (sid : Option String) (region : String) (account : Option String) (ts : String)
    (cache : UserCache) (app : App) (qapp : Option Qapp) (ds : List DataSource)
    (rs : List Retriever) (ps : List Plugin) (idx : Option String)
    (cc : Option ChatControls) :
    rowGet (Enhanced._create_global_row describeUser sid region account ts cache
        app qapp ds rs ps idx cc).1 "plugin_count" = some (.n ps.length) := rfl

/-- C7: a failing list call yields an empty sequence instead of an exception,
and the failure aborts neither the parent's other resource fetches (the
emitted row still carries the independently fetched retriever and plugin
counts) nor the processing of the remaining parents (the loop appends their
rows unconditionally). -/
theorem list_failure_degrades :
    Enhanced.get_qapps none = [] ∧
    (∀ d : String → Option Retriever, Enhanced.get_retrievers none d = []) ∧
    (∀ (env : Enhanced.Env) (cfg : Enhanced.ExportConfig)
       (st : Enhanced.ExportState) (app : App),
       env.qappsPages (app.applicationId.getD "N/A") = none →
       cfg.include_empty_apps = true →
       (Enhanced.processApp env cfg st app).1.length = 1 ∧
       ∀ r ∈ (Enhanced.processApp env cfg st app).1,
         rowGet r "retriever_count" = some (.n (Enhanced.get_retrievers
             (env.retrieverPages (app.applicationId.getD "N/A"))
             env.retrieverDetail).length) ∧
         rowGet r "plugin_count" = some (.n (Enhanced.get_plugins
             (env.pluginPages (app.applicationId.getD "N/A"))
             env.pluginDetail).length)) ∧
    (∀ (env : Enhanced.Env) (cfg : Enhanced.ExportConfig)
       (st : Enhanced.ExportState) (app : App) (rest : List App),
       (Enhanced.exportLoop env cfg st (app :: rest)).1
         = (Enhanced.processApp env cfg st app).1 ++
           (Enhanced.exportLoop env cfg (Enhanced.processApp env cfg st app).2 rest).1) := by
  refine ⟨rfl, fun d => rfl, ?_, fun env cfg st app rest => rfl⟩
  intro env cfg st app hfail hinc
  have hq : Enhanced.get_qapps (env.qappsPages (app.applicationId.getD "N/A")) = [] := by
    rw [hfail]
    rfl
  constructor
  · simp [Enhanced.processApp, hq, hinc]
  · intro r hr
    simp only [Enhanced.processApp, hq, hinc, if_true, List.mem_singleton] at hr
    subst hr
    exact ⟨global_row_retriever_count .., global_row_plugin_count ..⟩

/-- A retriever summary consisting only of its id. -/
def mkRetriever (retrieverId : String) : Retriever := ⟨retrieverId, none, none⟩

/-- An environment whose Q Apps list call fails but whose retriever fetch
returns two items. -/
def envC7 : Enhanced.Env :=
  { listInstances := none
    describeUser := fun _ _ => none
    listIndices := fun _ => none
    qappsPages := fun _ => none
    dataSourcePages := fun _ _ => none
    dataSourceDetail := fun _ => none
    retrieverPages := fun _ => some [[mkRetriever "r1", mkRetriever "r2"]]
    retrieverDetail := fun _ => none
    pluginPages := fun _ => none
    pluginDetail := fun _ => none
    chatControlsOf := fun _ => none }

/-- A run configuration with empty-inclusion enabled, for the C7 witness. -/
def cfgC7 : Enhanced.ExportConfig :=
  { include_empty_apps := true
    aws_region := "us-east-1"
    expected_account := none
    export_timestamp := "TS" }

/-- Witness for C7: a failed Q Apps list call still yields one placeholder
row whose retriever count reflects the sibling fetch. -/
theorem list_failure_degrades_witness :
    (Enhanced.processApp envC7 cfgC7 ⟨none, [], 0⟩ emptyApp).1.length = 1 ∧
    (∃ r ∈ (Enhanced.processApp envC7 cfgC7 ⟨none, [], 0⟩ emptyApp).1,
       rowGet r "retriever_count" = some (.n 2) ∧
       rowGet r "plugin_count" = some (.n 0)) := by
  have h := list_failure_degrades.2.2.1 envC7 cfgC7 ⟨none, [], 0⟩ emptyApp rfl rfl
  refine ⟨h.1, ?_⟩
  obtain ⟨r, hr⟩ : ∃ r, (Enhanced.processApp envC7 cfgC7 ⟨none, [], 0⟩ emptyApp).1 = [r] := by
    cases hrows : (Enhanced.processApp envC7 cfgC7 ⟨none, [], 0⟩ emptyApp).1 with
    | nil => rw [hrows] at h; exact absurd h.1 (by simp)
    | cons x xs =>
      rw [hrows] at h
      cases xs with
      | nil => exact ⟨x, rfl⟩
      | cons y ys => exact absurd h.1 (by simp)
  refine ⟨r, by rw [hr]; exact List.mem_singleton_self r, ?_⟩
  exact h.2 r (by rw [hr]; exact List.mem_singleton_self r)

/-- C10: a parent whose app-children list call fails is indistinguishable in
the export from a parent with genuinely zero app-children: for two
environments that agree everywhere except that one's Q Apps fetch fails and
the other's returns an empty page list, the loop body produces identical
output; with empty-inclusion enabled the parent contributes exactly one
placeholder row, and with it disabled the parent contributes no row at all. -/
theorem failed_fetch_indistinguishable (env env2 : Enhanced.Env)
    (cfg : Enhanced.ExportConfig) (st : Enhanced.ExportState) (app : App)
    (hfail : env.qappsPages (app.applicationId.getD "N/A") = none)
    (hempty : env2.qappsPages (app.applicationId.getD "N/A") = some [])
    (h1 : env2.listInstances = env.listInstances)
    (h2 : env2.describeUser = env.describeUser)
    (h3 : env2.listIndices = env.listIndices)
    (h4 : env2.dataSourcePages = env.dataSourcePages)
    (h5 : env2.dataSourceDetail = env.dataSourceDetail)
    (h6 : env2.retrieverPages = env.retrieverPages)
    (h7 : env2.retrieverDetail = env.retrieverDetail)
    (h8 : env2.pluginPages = env.pluginPages)
    (h9 : env2.pluginDetail = env.pluginDetail)
    (h10 : env2.chatControlsOf = env.chatControlsOf) :
    Enhanced.processApp env cfg st app = Enhanced.processApp env2 cfg st app ∧
    (cfg.include_empty_apps = true →
       (Enhanced.processApp env cfg st app).1.length = 1 ∧
       ∀ r ∈ (Enhanced.processApp env cfg st app).1,
         rowGet r "qapp_name" = some (.s "No Q Apps")) ∧
    (cfg.include_empty_apps = false → (Enhanced.processApp env cfg st app).1 = []) := by
  have hq : Enhanced.get_qapps (env.qappsPages (app.applicationId.getD "N/A")) = [] := by
    rw [hfail]
    rfl
  have hq2 : Enhanced.get_qapps (env2.qappsPages (app.applicationId.getD "N/A")) = [] := by
    rw [hempty]
    rfl
  refine ⟨?_, ?_, ?_⟩
  · simp only [Enhanced.processApp, Enhanced.discoverStep, hq, hq2,
      h1, h2, h3, h4, h5, h6, h7, h8, h9, h10]
  · intro hinc
    constructor
    · simp [Enhanced.processApp, hq, hinc]
    · intro r hr
      simp only [Enhanced.processApp, hq, hinc, if_true, List.mem_singleton] at hr
      subst hr
      exact global_row_no_qapp_name ..
  · intro hinc
    simp [Enhanced.processApp, hq, hinc]

/-- An environment whose Q Apps list call fails for every parent. -/
def envC10 : Enhanced.Env :=
  { listInstances := none
    describeUser := fun _ _ => none
    listIndices := fun _ => none
    qappsPages := fun _ => none
    dataSourcePages := fun _ _ => none
    dataSourceDetail := fun _ => none
    retrieverPages := fun _ => none
    retrieverDetail := fun _ => none
    pluginPages := fun _ => none
    pluginDetail := fun _ => none
    chatControlsOf := fun _ => none }

/-- The same environment with an empty (but successful) Q Apps fetch. -/
def envC10b : Enhanced.Env := { envC10 with qappsPages := fun _ => some [] }

/-- A run configuration with empty-inclusion enabled, for the C10 witness. -/
def cfgC10 : Enhanced.ExportConfig :=
  { include_empty_apps := true
    aws_region := "us-east-1"
    expected_account := none
    export_timestamp := "TS" }

/-- The C10 configuration with empty-inclusion disabled. -/
def cfgC10f : Enhanced.ExportConfig := { cfgC10 with include_empty_apps := false }

/-- Witness for C10: at a concrete parent the failed fetch and the empty
fetch produce identical output; one row with inclusion on, none with it off. -/
theorem failed_fetch_indistinguishable_witness :
    Enhanced.processApp envC10 cfgC10 ⟨none, [], 0⟩ emptyApp
      = Enhanced.processApp envC10b cfgC10 ⟨none, [], 0⟩ emptyApp ∧
    (Enhanced.processApp envC10 cfgC10 ⟨none, [], 0⟩ emptyApp).1.length = 1 ∧
    (Enhanced.processApp envC10 cfgC10f ⟨none, [], 0⟩ emptyApp).1 = [] := by
  have ha := failed_fetch_indistinguishable envC10 envC10b cfgC10 ⟨none, [], 0⟩ emptyApp
    rfl rfl rfl rfl rfl rfl rfl rfl rfl rfl rfl rfl
  have hb := failed_fetch_indistinguishable envC10 envC10b cfgC10f ⟨none, [], 0⟩ emptyApp
    rfl rfl rfl rfl rfl rfl rfl rfl rfl rfl rfl rfl
  exact ⟨ha.1, (ha.2.1 rfl).1, hb.2.2 rfl⟩
